import Mathlib

/-!
Shallow embedding of the AI Interviewer backend (`src/main.py`, `src/schemas.py`).

Strings are Lean `String`s; Python `str.lower`, substring containment (`in`)
and `str.split()` word counting are embedded below.

Python floats in this program only ever hold exact two-decimal values
(`round(x, 2)`, `50.0`, `20.0`, and averages of such rounded again to two
decimals), so scores are represented exactly as integer hundredths:
the Python float `50.0` is the natural number `5000`, and
`round(q, 2)` for `q = a / b` is `roundHE (100 * a) b` hundredths,
where `roundHE` is round-half-to-even (Python 3 `round`) of `a / b`.
-/

/-- Python `str.lower` restricted to ASCII data (all strings in this
repository are ASCII). -/
def pyLower (s : String) : String := ⟨s.data.map Char.toLower⟩

/-- Substring containment on character lists: `isSubstrList n h` is true
iff `n` occurs contiguously inside `h` (Python `n in h` on strings). -/
def isSubstrList (n : List Char) : List Char → Bool
  | [] => n.isEmpty
  | c :: t => n.isPrefixOf (c :: t) || isSubstrList n t

/-- Python `needle in hay` for strings. -/
def pyContains (hay needle : String) : Bool := isSubstrList needle.data hay.data

/-- Characters Python `str.split()` treats as separators (ASCII whitespace). -/
def isPySpace (c : Char) : Bool :=
  c = ' ' || c = '\t' || c = '\n' || c = '\r' || c = '\x0b' || c = '\x0c'

/-- Helper for `pyWordCount`: counts maximal nonempty runs of
non-whitespace characters; the flag records whether the previous
character was inside a word. -/
def pyWordCountAux : List Char → Bool → Nat
  | [], _ => 0
  | c :: t, inWord =>
    if isPySpace c then pyWordCountAux t false
    else (if inWord then 0 else 1) + pyWordCountAux t true

/-- Python `len(s.split())`: the number of whitespace-separated words. -/
def pyWordCount (s : String) : Nat := pyWordCountAux s.data false

/-- Round-half-to-even (Python 3 `round`) of the nonnegative fraction
`a / b`, as a natural number: the floor `a / b`, plus one when the
remainder exceeds half of `b`, tie going to the even neighbour. Only
ever used with `0 < b`. -/
def roundHE (a b : ℕ) : ℕ :=
  if 2 * (a - a / b * b) < b then a / b
  else if b < 2 * (a - a / b * b) then a / b + 1
  else if a / b % 2 = 0 then a / b else a / b + 1

/-- `schemas.Question`: a question prompt with its expected keywords. -/
structure Question where
  text : String
  keywords : List String
deriving DecidableEq

/-- `schemas.Interview` (plus the storage-assigned `id` attached by
`create_interview` after a successful write). -/
structure Interview where
  id : Option String
  role : String
  description : String
  level : String
  num_questions : Nat
  questions : List Question
deriving DecidableEq

/-- `schemas.Evaluation`; scores are in integer hundredths (the Python
float `50.0` is `5000`). -/
structure Evaluation where
  interview_id : String
  candidate_name : String
  answers : List String
  per_question_scores : List Nat
  per_question_feedback : List String
  total_score : Nat
  verdict : String
deriving DecidableEq

/-- A raw question entry as stored in a document: `text` is required by
`schemas.Question`, the `keywords` key may be absent. -/
structure QuestionDoc where
  text : String
  keywordsField : Option (List String)
deriving DecidableEq

/-- Pydantic validation `Question(**q)`: a missing `keywords` key falls
back to the `default_factory=list` empty list (`schemas.py` line 46). -/
def parseQuestion (d : QuestionDoc) : Question :=
  { text := d.text, keywords := d.keywordsField.getD [] }

/-- A stored interview document as returned by the storage collaborator:
`oid` is the storage-assigned `_id` rendered with `str` (present in every
document returned by the `{"_id": {"$exists": True}}` query), `idField`
is a caller-supplied `"id"` field if any, and `questionsField` is the
`"questions"` key if any (`interview_doc.get("questions", [])`). -/
structure InterviewDoc where
  oid : String
  idField : Option String
  questionsField : Option (List QuestionDoc)
deriving DecidableEq

/-- Modelled from the spec: the storage collaborator (`database.py`, whose
source is not in the repository snapshot) exposes
`create_document(collection, doc) -> id` and
`get_documents(collection, filter, limit) -> documents`, the latter
returning up to `limit` most-recent documents. A store holds the two
collections as lists with the most recent document first; a successful
write prepends. -/
structure Store where
  interviews : List InterviewDoc
  evaluations : List Evaluation
deriving DecidableEq

/-- `InterviewRequest` (`main.py` lines 58-62). `num_questions : ℤ`
since a Python int is unbounded and may be negative. -/
structure InterviewRequest where
  role : String
  level : String
  description : String
  num_questions : Int
deriving DecidableEq

/-- `EvaluateRequest` (`main.py` lines 64-67). -/
structure EvaluateRequest where
  interview_id : String
  candidate_name : String
  answers : List String
deriving DecidableEq

/-- The `HTTPException`s raised by the two core endpoints. -/
inductive ApiErr where
  | badRequest
  | notFound
  | dbError
deriving DecidableEq

/-- The HTTP status code each error is raised with. -/
def statusCode : ApiErr → Nat
  | ApiErr.badRequest => 400
  | ApiErr.notFound => 404
  | ApiErr.dbError => 500

/-- `BASE_QUESTIONS` (`main.py` lines 73-88): the static question bank,
a mapping from track to (question text, keyword list) pairs; `.get(track, [])`
yields `[]` for unknown tracks. -/
def BASE_QUESTIONS (track : String) : List (String × List String) :=
  if track = ("frontend") then
    [ (("Explain the virtual DOM and how React reconciles updates."),
        [("virtual dom"), ("reconciliation"), ("diffing"), ("fibers")]),
      (("What are the differences between useEffect and useLayoutEffect?"),
        [("timing"), ("layout"), ("paint"), ("cleanup")]),
      (("How would you optimize a large list rendering in React?"),
        [("virtualize"), ("memo"), ("useMemo"), ("useCallback"), ("key")]),
      (("Describe how CSS specificity works and how to avoid conflicts."),
        [("specificity"), ("cascade"), ("!important"), ("BEM")]),
      (("How do you handle state management at scale?"),
        [("redux"), ("zustand"), ("context"), ("atom"), ("query")]) ]
  else if track = ("backend") then
    [ (("Explain ACID properties in databases."),
        [("atomicity"), ("consistency"), ("isolation"), ("durability")]),
      (("How does an index work in MongoDB and when to use it?"),
        [("b-tree"), ("performance"), ("query"), ("sort")]),
      (("Describe differences between multiprocessing and multithreading in Python."),
        [("GIL"), ("cpu-bound"), ("io-bound")]),
      (("How would you design a rate limiter for an API?"),
        [("token bucket"), ("leaky bucket"), ("redis"), ("sliding window")]),
      (("What is idempotency and why is it important for APIs?"),
        [("safe"), ("retry"), ("PUT"), ("POST")]) ]
  else []

/-- `ROLE_DEFAULT` (`main.py` lines 90-93), as `.get`: `none` off the
two known tracks. -/
def ROLE_DEFAULT (track : String) : Option String :=
  if track = ("frontend") then some ("Frontend Engineer")
  else if track = ("backend") then some ("Backend Engineer")
  else none

/-- `infer_track` (`main.py` lines 95-99). -/
def infer_track (role : String) : String :=
  let r := pyLower role
  if pyContains r ("front") || pyContains r ("react") then ("frontend")
  else if pyContains r ("back") || pyContains r ("api") then ("backend")
  else ("frontend")

/-- `create_interview` (`main.py` lines 101-121). `dbOk` is whether the
storage write succeeds and `newId` the identifier it would assign
(modelled from the spec: `create_document` either returns an id or
raises). On write failure the request fails with a 500 error and the
store is unchanged; on success the document is prepended and the
returned interview carries the assigned id. -/
def create_interview (req : InterviewRequest) (dbOk : Bool) (newId : String)
    (st : Store) : Except ApiErr Interview × Store :=
  let track := infer_track req.role
  let qa := (BASE_QUESTIONS track).take (max 1 (min req.num_questions 10)).toNat
  let questions := qa.map fun p => Question.mk p.1 p.2
  let interview : Interview :=
    { id := none
      role := if req.role = ("") then (ROLE_DEFAULT track).getD req.role else req.role
      description := if req.description = ("") then ("Interview for ") ++ req.role
                     else req.description
      level := req.level
      num_questions := questions.length
      questions := questions }
  if dbOk then
    (Except.ok { interview with id := some newId },
     { st with interviews :=
        { oid := newId, idField := none,
          questionsField := some (questions.map fun q =>
            QuestionDoc.mk q.text (some q.keywords)) } :: st.interviews })
  else (Except.error ApiErr.dbError, st)

/-- The keywords of `q` found as case-insensitive substrings of the
answer (`main.py` line 173: `sum(1 for k in q.keywords if k.lower() in ans)`
counts exactly this list). -/
def coveredKeywords (q : Question) (ans : String) : List String :=
  q.keywords.filter fun k => pyContains (pyLower ans) (pyLower k)

/-- `missing` (`main.py` line 178): the keywords not found in the answer,
in bank order. -/
def missingKeywords (q : Question) (ans : String) : List String :=
  q.keywords.filter fun k => !(pyContains (pyLower ans) (pyLower k))

/-- Per-question score (`main.py` lines 172-176), in hundredths:
`round(100 * covered / len(keywords), 2)` becomes
`roundHE (10000 * covered) len`; the empty-keyword word-count rule gives
`5000` (50.0) or `2000` (20.0). -/
def questionScore (q : Question) (ans : String) : Nat :=
  if q.keywords.isEmpty then
    (if 5 < pyWordCount (pyLower ans) then 5000 else 2000)
  else roundHE (10000 * (coveredKeywords q ans).length) q.keywords.length

/-- Per-question feedback (`main.py` lines 178-181); `score > 70` is
`7000 < score` in hundredths. -/
def questionFeedback (q : Question) (ans : String) : String :=
  if 7000 < questionScore q ans then ("Good coverage.")
  else if (missingKeywords q ans).isEmpty then ("Could be more specific.")
  else ("Missing: ") ++ (", ").intercalate (missingKeywords q ans)

/-- The verdict chain (`main.py` lines 186-190); `avg >= 75` is
`7500 ≤ avg` in hundredths. -/
def verdictOf (avg : Nat) : String :=
  if 7500 ≤ avg then ("Strong match")
  else if 5000 ≤ avg then ("Promising but needs work")
  else ("Below expectations")

/-- The scoring loop and aggregation of `evaluate_answers` (`main.py`
lines 165-200), applied once the answer count has been validated:
per-question scores and feedback, the rounded mean
(`round(total / len(q_models), 2)` is `roundHE total len` in hundredths,
`0` when there are no questions), and the verdict. -/
def evalCore (req : EvaluateRequest) (q_models : List Question) : Evaluation :=
  let pairs := q_models.zip req.answers
  let per_scores := pairs.map fun p => questionScore p.1 p.2
  let per_feedback := pairs.map fun p => questionFeedback p.1 p.2
  let total := per_scores.sum
  let avg := if q_models.isEmpty then 0 else roundHE total q_models.length
  { interview_id := req.interview_id
    candidate_name := req.candidate_name
    answers := req.answers
    per_question_scores := per_scores
    per_question_feedback := per_feedback
    total_score := avg
    verdict := verdictOf avg }

/-- The interview lookup loop (`main.py` lines 143-147): first document
whose storage id (as a string) or caller-supplied `"id"` field equals the
requested id. -/
def findInterview (docs : List InterviewDoc) (iid : String) : Option InterviewDoc :=
  docs.find? fun it => decide (it.oid = iid ∨ it.idField = some iid)

/-- `q_models` (`main.py` lines 152-159): the document's `"questions"`
key, defaulting to `[]`, each entry validated as a `Question`. -/
def docQuestions (doc : InterviewDoc) : List Question :=
  (doc.questionsField.getD []).map parseQuestion

/-- `evaluate_answers` (`main.py` lines 135-207). `readOk` is whether the
`get_documents` lookup succeeds and `writeOk` whether the final
`create_document` write would succeed (modelled from the spec: either
collaborator call may raise). A failed lookup is a 500 error; a missing
interview a 404; an answer-count mismatch a 400; a failed evaluation
write is swallowed (`except Exception: pass`) and the evaluation is
returned anyway. -/
def evaluate_answers (req : EvaluateRequest) (readOk writeOk : Bool)
    (st : Store) : Except ApiErr Evaluation × Store :=
  match readOk with
  | false => (Except.error ApiErr.dbError, st)
  | true =>
    match findInterview (st.interviews.take 100) req.interview_id with
    | none => (Except.error ApiErr.notFound, st)
    | some doc =>
      if req.answers.length = (docQuestions doc).length then
        (Except.ok (evalCore req (docQuestions doc)),
         if writeOk then
           { st with evaluations := evalCore req (docQuestions doc) :: st.evaluations }
         else st)
      else (Except.error ApiErr.badRequest, st)

/-! ### Concrete inputs used by examples and witnesses -/

/-- The ACID question of the backend bank. -/
def acidQuestion : Question :=
  Question.mk ("Explain ACID properties in databases.")
    [("atomicity"), ("consistency"), ("isolation"), ("durability")]

/-- The spec's worked answer for the ACID question. -/
def acidAnswer : String := ("The database guarantees atomicity and consistency")

/-- A question with an empty keyword list. -/
def emptyKwQuestion : Question := Question.mk ("Describe your experience.") []

/-- A six-word answer (more than 5 words). -/
def sixWordAnswer : String := ("I have worked with many databases")

/-- A two-word answer (at most 5 words). -/
def twoWordAnswer : String := ("two words")

/-- A stored interview document whose single question entry has no
`keywords` key. -/
def wStoreNoKw : Store :=
  Store.mk [InterviewDoc.mk ("58") none (some [QuestionDoc.mk ("q") none])] []

/-- An evaluate request addressed to the document of `wStoreNoKw`. -/
def wReqNoKw : EvaluateRequest :=
  EvaluateRequest.mk ("58") ("bob") [sixWordAnswer]

/-- A stored interview document with an empty question list. -/
def wStoreEmptyQs : Store :=
  Store.mk [InterviewDoc.mk ("58") none (some [])] []

/-- A one-answer request against the zero-question document of
`wStoreEmptyQs`: the answer count mismatches. -/
def wReqMismatch : EvaluateRequest :=
  EvaluateRequest.mk ("58") ("bob") [("a")]

/-- A request whose interview id matches nothing in an empty store. -/
def wReqAbsent : EvaluateRequest :=
  EvaluateRequest.mk ("nothing-here") ("bob") []

/-- The empty store. -/
def emptyStore : Store := Store.mk [] []

/-- The single document of `wStoreNoKw`. -/
def wDocNoKw : InterviewDoc :=
  InterviewDoc.mk ("58") none (some [QuestionDoc.mk ("q") none])

/-- The evaluation produced for `wReqNoKw` against `wStoreNoKw`. -/
def wEvNoKw : Evaluation := evalCore wReqNoKw [Question.mk ("q") []]

/-- `wStoreNoKw` after the evaluation of `wReqNoKw` is persisted. -/
def wStoreNoKwAfter : Store := Store.mk wStoreNoKw.interviews [wEvNoKw]

/-- An interview-creation request asking for 0 questions. -/
def wReqZeroQs : InterviewRequest :=
  InterviewRequest.mk ("backend") ("mid") ("") 0

/-- An interview-creation request asking for 100 questions. -/
def wReqHundredQs : InterviewRequest :=
  InterviewRequest.mk ("backend") ("mid") ("") 100

/-- The interview created for `wReqZeroQs` with assigned id `id1`. -/
def wIvZeroQs : Interview :=
  Interview.mk (some ("id1")) ("backend") (("Interview for ") ++ ("backend"))
    ("mid") 1 [acidQuestion]

/-- The store after creating `wIvZeroQs` in the empty store. -/
def wStZeroQs : Store :=
  Store.mk [InterviewDoc.mk ("id1") none
    (some [QuestionDoc.mk acidQuestion.text (some acidQuestion.keywords)])] []

/-! ### Helper lemmas -/

theorem roundHE_le_of_le {a b M : ℕ} (hb : 0 < b) (h : a ≤ M * b) :
    roundHE a b ≤ M := by
  have hf : a / b ≤ M :=
    le_trans (Nat.div_le_div_right h) (le_of_eq (Nat.mul_div_cancel M hb))
  have hstep : ¬ 2 * (a - a / b * b) < b → a / b + 1 ≤ M := by
    intro h1
    rcases lt_or_eq_of_le h with hlt | heq
    · exact Nat.succ_le_of_lt ((Nat.div_lt_iff_lt_mul hb).mpr hlt)
    · exfalso
      apply h1
      rw [heq, Nat.mul_div_cancel M hb, Nat.sub_self, Nat.mul_zero]
      exact hb
  unfold roundHE
  split_ifs with h1 h2 h3
  · exact hf
  · exact hstep h1
  · exact hf
  · exact hstep h1

theorem roundHE_exact {M b : ℕ} (hb : 0 < b) : roundHE (M * b) b = M := by
  unfold roundHE
  rw [Nat.mul_div_cancel M hb, Nat.sub_self, Nat.mul_zero]
  rw [if_pos (by simpa using hb)]

theorem list_sum_le_mul_length {l : List ℕ} {M : ℕ} (h : ∀ x ∈ l, x ≤ M) :
    l.sum ≤ M * l.length := by
  induction l with
  | nil => simp
  | cons x t ih =>
    simp only [List.sum_cons, List.length_cons]
    have hx := h x (by simp)
    have ht := ih fun y hy => h y (by simp [hy])
    calc x + t.sum ≤ M + M * t.length := Nat.add_le_add hx ht
      _ = M * (t.length + 1) := by ring

theorem questionScore_le (q : Question) (ans : String) :
    questionScore q ans ≤ 10000 := by
  unfold questionScore
  split_ifs with h1 h2
  · norm_num
  · norm_num
  · have hpos : 0 < q.keywords.length :=
      List.length_pos.mpr fun he => h1 (by simp [he])
    exact roundHE_le_of_le hpos
      (Nat.mul_le_mul_left 10000 (List.length_filter_le _ q.keywords))

theorem covered_all_of_missing_nil {q : Question} {ans : String}
    (h : missingKeywords q ans = []) :
    (coveredKeywords q ans).length = q.keywords.length := by
  unfold missingKeywords at h
  unfold coveredKeywords
  have hall : ∀ k ∈ q.keywords, pyContains (pyLower ans) (pyLower k) = true := by
    intro k hk
    by_contra hc
    have hmem : k ∈ q.keywords.filter fun k => !(pyContains (pyLower ans) (pyLower k)) := by
      simp only [List.mem_filter, Bool.not_eq_true']
      exact ⟨hk, Bool.not_eq_true _ ▸ hc⟩
    rw [h] at hmem
    exact absurd hmem (List.not_mem_nil k)
  rw [List.filter_eq_self.mpr hall]

theorem questionScore_full {q : Question} {ans : String}
    (hk : q.keywords ≠ []) (h : missingKeywords q ans = []) :
    questionScore q ans = 10000 := by
  unfold questionScore
  rw [if_neg (by simp [hk]), covered_all_of_missing_nil h]
  exact roundHE_exact (List.length_pos.mpr hk)

theorem evalCore_answers (req : EvaluateRequest) (qms : List Question) :
    (evalCore req qms).answers = req.answers := rfl

theorem evalCore_scores (req : EvaluateRequest) (qms : List Question) :
    (evalCore req qms).per_question_scores =
      (qms.zip req.answers).map fun p => questionScore p.1 p.2 := rfl

theorem evalCore_feedback (req : EvaluateRequest) (qms : List Question) :
    (evalCore req qms).per_question_feedback =
      (qms.zip req.answers).map fun p => questionFeedback p.1 p.2 := rfl

theorem evalCore_total (req : EvaluateRequest) (qms : List Question) :
    (evalCore req qms).total_score =
      (if qms.isEmpty then 0
       else roundHE ((qms.zip req.answers).map fun p => questionScore p.1 p.2).sum
              qms.length) := rfl

theorem evalCore_verdict (req : EvaluateRequest) (qms : List Question) :
    (evalCore req qms).verdict = verdictOf (evalCore req qms).total_score := rfl

theorem evaluate_ok_inv {req : EvaluateRequest} {wok : Bool} {st : Store}
    {ev : Evaluation} {st' : Store}
    (h : evaluate_answers req true wok st = (Except.ok ev, st')) :
    ∃ doc, findInterview (st.interviews.take 100) req.interview_id = some doc ∧
      req.answers.length = (docQuestions doc).length ∧
      ev = evalCore req (docQuestions doc) ∧
      st' = (if wok then Store.mk st.interviews (ev :: st.evaluations) else st) := by
  cases hf : findInterview (st.interviews.take 100) req.interview_id with
  | none =>
    simp only [evaluate_answers, hf, Prod.mk.injEq] at h
    exact absurd h.1 (by simp)
  | some doc =>
    simp only [evaluate_answers, hf] at h
    by_cases hl : req.answers.length = (docQuestions doc).length
    · rw [if_pos hl] at h
      simp only [Prod.mk.injEq, Except.ok.injEq] at h
      obtain ⟨hev, hst⟩ := h
      refine ⟨doc, rfl, hl, hev.symm, ?_⟩
      cases wok with
      | false => simpa using hst.symm
      | true => rw [← hst, ← hev]
    · rw [if_neg hl] at h
      simp only [Prod.mk.injEq] at h
      exact absurd h.1 (by simp)

theorem missing_fb_ne_cbm (x : String) :
    ("Missing: ") ++ x ≠ ("Could be more specific.") := by
  intro he
  have hd := congrArg String.data he
  rw [String.data_append] at hd
  rw [show String.data ("Missing: ") = ('M') :: String.data ("issing: ") from rfl] at hd
  rw [show String.data ("Could be more specific.") =
      ('C') :: String.data ("ould be more specific.") from rfl] at hd
  rw [List.cons_append] at hd
  injection hd with h1 _
  exact absurd h1 (by decide)

/-- C1: for every evaluated question with a non-empty keyword list the
per-question score is `round(100 * c / n, 2)` — in hundredths,
`roundHE (10000 * c) n` — where `n` is the keyword count and `c` the
number of keywords occurring as case-insensitive substrings of the
answer; for the ACID keywords and the answer
`The database guarantees atomicity and consistency` the score is 50.0
(5000 hundredths) and the feedback `Missing: isolation, durability`;
for an empty keyword list the score is 50.0 when the answer has more
than 5 whitespace-separated words and 20.0 otherwise. -/
theorem c1_per_question_scoring :
    (∀ (q : Question) (ans : String), q.keywords ≠ [] →
      questionScore q ans =
        roundHE (10000 * (coveredKeywords q ans).length) q.keywords.length)
    ∧ (∀ (q : Question) (ans : String), q.keywords = [] →
      questionScore q ans =
        (if 5 < pyWordCount (pyLower ans) then 5000 else 2000))
    ∧ questionScore acidQuestion acidAnswer = 5000
    ∧ questionFeedback acidQuestion acidAnswer = ("Missing: isolation, durability") := by
  refine ⟨?_, ?_, by decide, by decide⟩
  · intro q ans h
    unfold questionScore
    rw [if_neg (by simp [h])]
  · intro q ans h
    unfold questionScore
    rw [if_pos (by simp [h])]

/-- Witness for C1 at the ACID example and a two-word answer. -/
theorem c1_witness :
    acidQuestion.keywords ≠ [] ∧
    questionScore acidQuestion acidAnswer =
      roundHE (10000 * (coveredKeywords acidQuestion acidAnswer).length)
        acidQuestion.keywords.length ∧
    emptyKwQuestion.keywords = [] ∧
    questionScore emptyKwQuestion twoWordAnswer =
      (if 5 < pyWordCount (pyLower twoWordAnswer) then 5000 else 2000) :=
  ⟨by decide, c1_per_question_scoring.1 acidQuestion acidAnswer (by decide),
   rfl, c1_per_question_scoring.2.1 emptyKwQuestion twoWordAnswer rfl⟩

/-- C2 counterexample: a question with an empty keyword list and a
six-word answer gets feedback `Could be more specific.` with score
50.0 (5000 hundredths), not 20.0 — so the branch is also reachable
with score 50.0, refuting the claim that it is reachable only with
score 20.0. -/
theorem c2_counterexample :
    questionFeedback emptyKwQuestion sixWordAnswer = ("Could be more specific.")
    ∧ questionScore emptyKwQuestion sixWordAnswer = 5000
    ∧ questionScore emptyKwQuestion sixWordAnswer ≠ 2000 :=
  ⟨by decide, by decide, by decide⟩

/-- C2 (amended): feedback is `Good coverage.` when the score exceeds
70; otherwise `Missing: ` followed by the comma-joined missing keywords
in bank order when at least one keyword is missing; otherwise
`Could be more specific.`; and the `Could be more specific.` branch is
reachable only when the keyword list is empty, in which case the score
is 20.0 or 50.0 (2000 or 5000 hundredths). -/
theorem c2_feedback :
    (∀ (q : Question) (ans : String), 7000 < questionScore q ans →
      questionFeedback q ans = ("Good coverage."))
    ∧ (∀ (q : Question) (ans : String), questionScore q ans ≤ 7000 →
      missingKeywords q ans ≠ [] →
      questionFeedback q ans =
        ("Missing: ") ++ (", ").intercalate (missingKeywords q ans))
    ∧ (∀ (q : Question) (ans : String), questionScore q ans ≤ 7000 →
      missingKeywords q ans = [] →
      questionFeedback q ans = ("Could be more specific."))
    ∧ (∀ (q : Question) (ans : String),
      questionFeedback q ans = ("Could be more specific.") →
      q.keywords = [] ∧
        (questionScore q ans = 2000 ∨ questionScore q ans = 5000)) := by
  refine ⟨?_, ?_, ?_, ?_⟩
  · intro q ans h; unfold questionFeedback; rw [if_pos h]
  · intro q ans h hm
    unfold questionFeedback
    rw [if_neg (Nat.not_lt.mpr h), if_neg (by simp [hm])]
  · intro q ans h hm
    unfold questionFeedback
    rw [if_neg (Nat.not_lt.mpr h), if_pos (by simp [hm])]
  · intro q ans hfb
    unfold questionFeedback at hfb
    split_ifs at hfb with h1 h2
    · exact absurd hfb (by decide)
    · have hk : q.keywords = [] := by
        by_contra hkne
        apply h1
        rw [questionScore_full hkne (List.isEmpty_iff.mp h2)]
        norm_num
      refine ⟨hk, ?_⟩
      unfold questionScore
      rw [if_pos (by simp [hk])]
      by_cases hw : 5 < pyWordCount (pyLower ans)
      · rw [if_pos hw]; right; rfl
      · rw [if_neg hw]; left; rfl
    · exact absurd hfb (missing_fb_ne_cbm _)

/-- Witness for C2 at the ACID example and a six-word answer. -/
theorem c2_witness :
    questionFeedback acidQuestion acidAnswer =
      ("Missing: ") ++ (", ").intercalate (missingKeywords acidQuestion acidAnswer)
    ∧ (emptyKwQuestion.keywords = [] ∧
        (questionScore emptyKwQuestion sixWordAnswer = 2000 ∨
         questionScore emptyKwQuestion sixWordAnswer = 5000)) :=
  ⟨c2_feedback.2.1 acidQuestion acidAnswer (by decide) (by decide),
   c2_feedback.2.2.2 emptyKwQuestion sixWordAnswer (by decide)⟩

/-- C6: track inference is a total deterministic function on strings:
after case-folding, containing `front` or `react` gives `frontend`,
else containing `back` or `api` gives `backend`, else `frontend`;
with the three concrete examples of the spec. -/
theorem c6_track_inference :
    (∀ role : String,
      (pyContains (pyLower role) ("front") || pyContains (pyLower role) ("react")) = true →
      infer_track role = ("frontend"))
    ∧ (∀ role : String,
      (pyContains (pyLower role) ("front") || pyContains (pyLower role) ("react")) = false →
      (pyContains (pyLower role) ("back") || pyContains (pyLower role) ("api")) = true →
      infer_track role = ("backend"))
    ∧ (∀ role : String,
      (pyContains (pyLower role) ("front") || pyContains (pyLower role) ("react")) = false →
      (pyContains (pyLower role) ("back") || pyContains (pyLower role) ("api")) = false →
      infer_track role = ("frontend"))
    ∧ (∀ role : String, infer_track role = ("frontend") ∨ infer_track role = ("backend"))
    ∧ infer_track ("Senior React Developer") = ("frontend")
    ∧ infer_track ("Backend API Engineer") = ("backend")
    ∧ infer_track ("Data Scientist") = ("frontend") := by
  refine ⟨?_, ?_, ?_, ?_, by decide, by decide, by decide⟩
  · intro role h; simp [infer_track, h]
  · intro role h1 h2; simp [infer_track, h1, h2]
  · intro role h1 h2; simp [infer_track, h1, h2]
  · intro role
    cases h1 : pyContains (pyLower role) ("front") || pyContains (pyLower role) ("react") with
    | true => left; simp [infer_track, h1]
    | false =>
      cases h2 : pyContains (pyLower role) ("back") || pyContains (pyLower role) ("api") with
      | true => right; simp [infer_track, h1, h2]
      | false => left; simp [infer_track, h1, h2]

/-- Witness for C6 at two concrete role strings. -/
theorem c6_witness :
    infer_track ("Senior React Developer") = ("frontend") ∧
    infer_track ("Backend API Engineer") = ("backend") :=
  ⟨c6_track_inference.1 ("Senior React Developer") (by decide),
   c6_track_inference.2.1 ("Backend API Engineer") (by decide) (by decide)⟩

/-- C4: when the answer count differs from the question count of the
looked-up interview, `evaluate_answers` fails with the 400 bad-request
error and the store is unchanged — no `Evaluation` is written and no
score is returned. -/
theorem c4_answer_count_mismatch (req : EvaluateRequest) (wok : Bool) (st : Store)
    (doc : InterviewDoc)
    (hf : findInterview (st.interviews.take 100) req.interview_id = some doc)
    (hl : req.answers.length ≠ (docQuestions doc).length) :
    evaluate_answers req true wok st = (Except.error ApiErr.badRequest, st)
    ∧ statusCode ApiErr.badRequest = 400 := by
  refine ⟨?_, rfl⟩
  simp only [evaluate_answers, hf]
  rw [if_neg hl]

/-- Witness for C4: one answer against a zero-question interview. -/
theorem c4_witness :
    evaluate_answers wReqMismatch true true wStoreEmptyQs =
      (Except.error ApiErr.badRequest, wStoreEmptyQs)
    ∧ statusCode ApiErr.badRequest = 400 :=
  c4_answer_count_mismatch wReqMismatch true wStoreEmptyQs
    (InterviewDoc.mk ("58") none (some [])) rfl (by decide)

/-- C5: the interview lookup is a linear scan of up to 100 stored
interview documents, a document matching when its storage id (as a
string) or its `id` field equals the requested id; `evaluate_answers`
fails with the 404 not-found error and leaves the store unchanged
exactly when no scanned document matches. -/
theorem c5_lookup_scan (req : EvaluateRequest) (wok : Bool) (st : Store) :
    (evaluate_answers req true wok st = (Except.error ApiErr.notFound, st)
      ↔ ∀ doc ∈ st.interviews.take 100,
          ¬(doc.oid = req.interview_id ∨ doc.idField = some req.interview_id))
    ∧ statusCode ApiErr.notFound = 404 := by
  refine ⟨?_, rfl⟩
  constructor
  · intro h
    cases hf : findInterview (st.interviews.take 100) req.interview_id with
    | none =>
      intro doc hd
      have h2 := List.find?_eq_none.mp hf doc hd
      simpa using h2
    | some doc =>
      exfalso
      simp only [evaluate_answers, hf] at h
      by_cases hl : req.answers.length = (docQuestions doc).length
      · rw [if_pos hl] at h
        simp at h
      · rw [if_neg hl] at h
        simp at h
  · intro hall
    have hf : findInterview (st.interviews.take 100) req.interview_id = none := by
      apply List.find?_eq_none.mpr
      intro x hx
      simpa using hall x hx
    simp only [evaluate_answers, hf]

/-- Witness for C5: evaluating against an empty store is a 404. -/
theorem c5_witness :
    evaluate_answers wReqAbsent true true emptyStore =
      (Except.error ApiErr.notFound, emptyStore) :=
  (c5_lookup_scan wReqAbsent true emptyStore).1.mpr (by simp [emptyStore])

/-- C7: a created interview's questions are exactly the first
`clamp(num_questions, 1, 10)` entries of the inferred track's bank in
bank order, `num_questions` equals the number of selected questions,
the selection never exceeds 10 nor the bank size; requesting 0
questions yields 1 and requesting 100 yields the bank size 5. -/
theorem c7_question_selection :
    (∀ (req : InterviewRequest) (dbOk : Bool) (newId : String) (st : Store)
        (iv : Interview) (st' : Store),
      create_interview req dbOk newId st = (Except.ok iv, st') →
      iv.questions = ((BASE_QUESTIONS (infer_track req.role)).take
          (max 1 (min req.num_questions 10)).toNat).map (fun p => Question.mk p.1 p.2)
      ∧ iv.num_questions = iv.questions.length
      ∧ iv.questions.length ≤ 10
      ∧ iv.questions.length ≤ (BASE_QUESTIONS (infer_track req.role)).length)
    ∧ ((create_interview wReqZeroQs true ("id1") emptyStore).1.toOption.map
        Interview.num_questions = some 1)
    ∧ ((create_interview wReqHundredQs true ("id1") emptyStore).1.toOption.map
        Interview.num_questions = some 5) := by
  refine ⟨?_, rfl, rfl⟩
  intro req dbOk newId st iv st' h
  cases dbOk with
  | false => simp [create_interview] at h
  | true =>
    have h1 : (create_interview req true newId st).1 = Except.ok iv := by rw [h]
    have hiv := Except.ok.inj h1
    subst hiv
    have hk : (max 1 (min req.num_questions 10)).toNat ≤ 10 := by
      rw [Int.toNat_le]
      exact max_le (by norm_num) (le_trans (min_le_right _ _) (by norm_num))
    refine ⟨rfl, rfl, ?_, ?_⟩
    · simp only [List.length_map, List.length_take]
      exact le_trans (min_le_left _ _) hk
    · simp only [List.length_map, List.length_take]
      exact min_le_right _ _

/-- Witness for C7 at a successful concrete creation. -/
theorem c7_witness :
    wIvZeroQs.questions =
      ((BASE_QUESTIONS (infer_track wReqZeroQs.role)).take
        (max 1 (min wReqZeroQs.num_questions 10)).toNat).map (fun p => Question.mk p.1 p.2)
    ∧ wIvZeroQs.num_questions = wIvZeroQs.questions.length
    ∧ wIvZeroQs.questions.length ≤ 10
    ∧ wIvZeroQs.questions.length ≤ (BASE_QUESTIONS (infer_track wReqZeroQs.role)).length :=
  c7_question_selection.1 wReqZeroQs true ("id1") emptyStore wIvZeroQs wStZeroQs rfl

/-- C8: storage-error policy is asymmetric: a failed interview write
makes `create_interview` fail with the 500 error, while the result of
`evaluate_answers` is identical whether or not the evaluation write
succeeds — a failed write is absorbed, leaving the store unchanged. -/
theorem c8_storage_error_asymmetry :
    (∀ (req : InterviewRequest) (newId : String) (st : Store),
      create_interview req false newId st = (Except.error ApiErr.dbError, st))
    ∧ statusCode ApiErr.dbError = 500
    ∧ (∀ (req : EvaluateRequest) (st : Store) (wok : Bool),
      (evaluate_answers req true wok st).1 = (evaluate_answers req true true st).1)
    ∧ (∀ (req : EvaluateRequest) (st : Store),
      (evaluate_answers req true false st).2 = st) := by
  refine ⟨?_, rfl, ?_, ?_⟩
  · intro req newId st
    simp [create_interview]
  · intro req st wok
    cases hf : findInterview (st.interviews.take 100) req.interview_id with
    | none => simp [evaluate_answers, hf]
    | some doc =>
      by_cases hl : req.answers.length = (docQuestions doc).length
      · simp only [evaluate_answers, hf]
        rw [if_pos hl, if_pos hl]
      · simp only [evaluate_answers, hf]
        rw [if_neg hl, if_neg hl]
  · intro req st
    cases hf : findInterview (st.interviews.take 100) req.interview_id with
    | none => simp [evaluate_answers, hf]
    | some doc =>
      by_cases hl : req.answers.length = (docQuestions doc).length
      · simp only [evaluate_answers, hf]
        rw [if_pos hl]
        rfl
      · simp only [evaluate_answers, hf]
        rw [if_neg hl]

/-- Witness for C8 at concrete requests and stores. -/
theorem c8_witness :
    create_interview wReqZeroQs false ("id1") emptyStore =
      (Except.error ApiErr.dbError, emptyStore)
    ∧ (evaluate_answers wReqNoKw true false wStoreNoKw).1 =
        (evaluate_answers wReqNoKw true true wStoreNoKw).1
    ∧ (evaluate_answers wReqNoKw true false wStoreNoKw).2 = wStoreNoKw :=
  ⟨c8_storage_error_asymmetry.1 wReqZeroQs ("id1") emptyStore,
   c8_storage_error_asymmetry.2.2.1 wReqNoKw wStoreNoKw false,
   c8_storage_error_asymmetry.2.2.2 wReqNoKw wStoreNoKw⟩

/-- C3: the total score of a returned evaluation is the rounded mean
of the per-question scores (`roundHE sum count` in hundredths, 0 for
zero questions), and the verdict follows first-match-wins thresholds:
`Strong match` from 75.00, `Promising but needs work` from 50.00, else
`Below expectations`; with the four boundary values 75.00, 74.99,
50.00, 49.99. -/
theorem c3_total_and_verdict :
    (∀ (req : EvaluateRequest) (wok : Bool) (st : Store) (ev : Evaluation) (st' : Store),
      evaluate_answers req true wok st = (Except.ok ev, st') →
      ev.total_score =
        (if ev.per_question_scores.isEmpty then 0
         else roundHE ev.per_question_scores.sum ev.per_question_scores.length)
      ∧ ev.verdict = verdictOf ev.total_score)
    ∧ (∀ avg : Nat, 7500 ≤ avg → verdictOf avg = ("Strong match"))
    ∧ (∀ avg : Nat, avg < 7500 → 5000 ≤ avg → verdictOf avg = ("Promising but needs work"))
    ∧ (∀ avg : Nat, avg < 5000 → verdictOf avg = ("Below expectations"))
    ∧ verdictOf 7500 = ("Strong match")
    ∧ verdictOf 7499 = ("Promising but needs work")
    ∧ verdictOf 5000 = ("Promising but needs work")
    ∧ verdictOf 4999 = ("Below expectations") := by
  refine ⟨?_, ?_, ?_, ?_, by decide, by decide, by decide, by decide⟩
  · intro req wok st ev st' h
    obtain ⟨doc, hf, hl, hev, hst⟩ := evaluate_ok_inv h
    subst hev
    constructor
    · rw [evalCore_total, evalCore_scores]
      have hlen : ((docQuestions doc).zip req.answers).length = (docQuestions doc).length := by
        rw [List.length_zip, hl, min_self]
      have hlenm : (((docQuestions doc).zip req.answers).map fun p =>
          questionScore p.1 p.2).length = (docQuestions doc).length := by
        rw [List.length_map, hlen]
      by_cases hq : docQuestions doc = []
      · simp [hq]
      · have h2 : (((docQuestions doc).zip req.answers).map fun p =>
            questionScore p.1 p.2) ≠ [] := by
          intro hc
          apply hq
          apply List.length_eq_zero.mp
          rw [← hlenm, hc]
          rfl
        rw [if_neg (by simp [List.isEmpty_iff, hq]),
            if_neg (by simp [List.isEmpty_iff, h2]), hlenm]
    · rw [evalCore_verdict]
  · intro avg h; unfold verdictOf; rw [if_pos h]
  · intro avg h1 h2
    unfold verdictOf
    rw [if_neg (Nat.not_le.mpr h1), if_pos h2]
  · intro avg h
    unfold verdictOf
    rw [if_neg (Nat.not_le.mpr (lt_trans h (by norm_num))),
        if_neg (Nat.not_le.mpr h)]

/-- Witness for C3 at a concrete successful evaluation. -/
theorem c3_witness :
    wEvNoKw.total_score =
      (if wEvNoKw.per_question_scores.isEmpty then 0
       else roundHE wEvNoKw.per_question_scores.sum wEvNoKw.per_question_scores.length)
    ∧ wEvNoKw.verdict = verdictOf wEvNoKw.total_score :=
  c3_total_and_verdict.1 wReqNoKw true wStoreNoKw wEvNoKw wStoreNoKwAfter rfl

/-- C9: every returned evaluation has equally many answers,
per-question scores, and feedback entries as the referenced interview
has questions; every per-question score lies in [0, 100] (0 to 10000
hundredths) and so does the total score. -/
theorem c9_evaluation_invariants (req : EvaluateRequest) (wok : Bool) (st : Store)
    (ev : Evaluation) (st' : Store) (doc : InterviewDoc)
    (h : evaluate_answers req true wok st = (Except.ok ev, st'))
    (hfd : findInterview (st.interviews.take 100) req.interview_id = some doc) :
    ev.answers.length = ev.per_question_scores.length
    ∧ ev.per_question_scores.length = ev.per_question_feedback.length
    ∧ ev.answers.length = (docQuestions doc).length
    ∧ (∀ s ∈ ev.per_question_scores, 0 ≤ s ∧ s ≤ 10000)
    ∧ 0 ≤ ev.total_score ∧ ev.total_score ≤ 10000 := by
  obtain ⟨doc', hf', hl, hev, hst⟩ := evaluate_ok_inv h
  rw [hfd] at hf'
  have hdoc : doc = doc' := Option.some.inj hf'
  subst hdoc
  subst hev
  have hlen : ((docQuestions doc).zip req.answers).length = (docQuestions doc).length := by
    rw [List.length_zip, hl, min_self]
  refine ⟨?_, ?_, ?_, ?_, Nat.zero_le _, ?_⟩
  · rw [evalCore_answers, evalCore_scores, List.length_map, hlen, hl]
  · rw [evalCore_scores, evalCore_feedback, List.length_map, List.length_map]
  · rw [evalCore_answers, hl]
  · rw [evalCore_scores]
    intro s hs
    obtain ⟨p, hp, hps⟩ := List.mem_map.mp hs
    exact ⟨Nat.zero_le s, hps ▸ questionScore_le p.1 p.2⟩
  · rw [evalCore_total]
    by_cases hq : docQuestions doc = []
    · simp [hq]
    · rw [if_neg (by simp [List.isEmpty_iff, hq])]
      have hb : ∀ x ∈ (((docQuestions doc).zip req.answers).map fun p =>
          questionScore p.1 p.2), x ≤ 10000 := by
        intro x hx
        obtain ⟨p, hp, hps⟩ := List.mem_map.mp hx
        exact hps ▸ questionScore_le p.1 p.2
      have hsum := list_sum_le_mul_length hb
      rw [List.length_map, hlen] at hsum
      exact roundHE_le_of_le (List.length_pos.mpr hq) hsum

/-- Witness for C9 at a concrete successful evaluation. -/
theorem c9_witness :
    wEvNoKw.answers.length = wEvNoKw.per_question_scores.length
    ∧ wEvNoKw.per_question_scores.length = wEvNoKw.per_question_feedback.length
    ∧ wEvNoKw.answers.length = (docQuestions wDocNoKw).length
    ∧ (∀ s ∈ wEvNoKw.per_question_scores, 0 ≤ s ∧ s ≤ 10000)
    ∧ 0 ≤ wEvNoKw.total_score ∧ wEvNoKw.total_score ≤ 10000 :=
  c9_evaluation_invariants wReqNoKw true wStoreNoKw wEvNoKw wStoreNoKwAfter
    wDocNoKw rfl rfl

/-- C10: a stored question entry that omits the `keywords` field or
stores it as an empty list is parsed as a question with an empty
keyword set, hence scored by the word-count rule (50.0 for more than
5 words, else 20.0), and evaluation still succeeds — the missing field
never causes an error. -/
theorem c10_default_keywords :
    (∀ d : QuestionDoc, d.keywordsField = none ∨ d.keywordsField = some [] →
      (parseQuestion d).keywords = [])
    ∧ (∀ (d : QuestionDoc) (ans : String),
      d.keywordsField = none ∨ d.keywordsField = some [] →
      questionScore (parseQuestion d) ans =
        (if 5 < pyWordCount (pyLower ans) then 5000 else 2000))
    ∧ (∀ (req : EvaluateRequest) (wok : Bool) (st : Store) (doc : InterviewDoc),
      findInterview (st.interviews.take 100) req.interview_id = some doc →
      req.answers.length = (docQuestions doc).length →
      ∃ (ev : Evaluation) (st' : Store),
        evaluate_answers req true wok st = (Except.ok ev, st')) := by
  have hkw : ∀ d : QuestionDoc, d.keywordsField = none ∨ d.keywordsField = some [] →
      (parseQuestion d).keywords = [] := by
    intro d hd
    rcases hd with hd | hd <;> simp [parseQuestion, hd]
  refine ⟨hkw, ?_, ?_⟩
  · intro d ans hd
    unfold questionScore
    rw [if_pos (by simp [hkw d hd])]
  · intro req wok st doc hf hl
    refine ⟨evalCore req (docQuestions doc),
      (if wok then Store.mk st.interviews
        (evalCore req (docQuestions doc) :: st.evaluations) else st), ?_⟩
    simp only [evaluate_answers, hf]
    rw [if_pos hl]

/-- Witness for C10 at a keyword-less question document. -/
theorem c10_witness :
    questionScore (parseQuestion (QuestionDoc.mk ("q") none)) sixWordAnswer =
      (if 5 < pyWordCount (pyLower sixWordAnswer) then 5000 else 2000)
    ∧ ∃ (ev : Evaluation) (st' : Store),
        evaluate_answers wReqNoKw true true wStoreNoKw = (Except.ok ev, st') :=
  ⟨c10_default_keywords.2.1 (QuestionDoc.mk ("q") none) sixWordAnswer (Or.inl rfl),
   c10_default_keywords.2.2 wReqNoKw true wStoreNoKw wDocNoKw rfl rfl⟩
